import Mathlib

/-!
Shallow embedding of the voice-to-text repository (React/TypeScript):
  * `AudioRecorder` (audio/audioRecorder.ts): PCM conversion and per-frame
    signal analysis (silence / speech / music_noise classification, volume).
  * `DeepgramService` (services/deepgramService.ts): inbound message handling
    and connection teardown.
  * `usePushToTalk` (hooks/usePushToTalk.ts): the session controller state
    and its state-update functions (start, stop, transcript events, ticks),
    plus a small-step transition system over controller configurations.

Numeric conventions: JavaScript floating-point sample values are modelled as
exact rationals (every finite float is a rational); machine `Int16` storage is
modelled as integers reduced modulo 2^16 into [-2^15, 2^15).
-/

namespace VoiceToText

/-- JavaScript `Math.round`: round half up, i.e. `⌊q + 1/2⌋`. -/
def jsRound (q : ℚ) : ℤ := ⌊q + 1/2⌋

/-- Truncation toward zero, the conversion JavaScript applies when storing a
number into an `Int16Array` (`ToIntegerOrInfinity` truncates toward zero). -/
def truncTowardZero (q : ℚ) : ℤ := if 0 ≤ q then ⌊q⌋ else ⌈q⌉

/-- Reduction of an integer into the signed 16-bit range `[-32768, 32767]`,
the wrap-around applied by `Int16Array` element stores. -/
def toInt16 (n : ℤ) : ℤ := (n + 32768) % 65536 - 32768

/-- One sample of `AudioRecorder.floatTo16BitPCM` (audioRecorder.ts lines
127-136): clamp the sample to `[-1, 1]`, scale negatives by `0x8000` and
non-negatives by `0x7FFF`, then store into an `Int16Array` element
(truncation toward zero and 16-bit wrap-around). -/
def floatTo16BitPCMSample (x : ℚ) : ℤ :=
  let s := max (-1) (min 1 x)
  toInt16 (truncTowardZero (if s < 0 then s * 0x8000 else s * 0x7FFF))

/-- `AudioRecorder.floatTo16BitPCM` applied to a whole frame. -/
def floatTo16BitPCM (input : List ℚ) : List ℤ := input.map floatTo16BitPCMSample

/-- Audio classification labels (`AudioAnalysisStatus` in audioRecorder.ts). -/
inductive AudioAnalysisStatus
  | speech
  | music_noise
  | silence
  | unknown
deriving DecidableEq, Repr

/-- Silence threshold from audioRecorder.ts line 19 (`silenceThreshold = 0.005`). -/
def silenceThreshold : ℚ := 0.005

/-- Zero-crossing count of `AudioRecorder.analyzeAudio` (lines 186-191): the
number of adjacent sample pairs where the sign (with 0 counted as
non-negative) changes. -/
def zcrCount : List ℚ → ℕ
  | [] => 0
  | [_] => 0
  | x :: y :: rest =>
      (if (0 ≤ y ∧ x < 0) ∨ (y < 0 ∧ 0 ≤ x) then 1 else 0) + zcrCount (y :: rest)

/-- Energy-weighted sum `Σ i * dataArray[i]` over the byte spectrum starting
at bin index `i` (audioRecorder.ts lines 177-180). -/
def weightedSumFrom (i : ℕ) : List ℕ → ℕ
  | [] => 0
  | b :: rest => i * b + weightedSumFrom (i + 1) rest

/-- Energy-weighted sum `Σ i * dataArray[i]` over the whole byte spectrum. -/
def weightedSumFn (bytes : List ℕ) : ℕ := weightedSumFrom 0 bytes

/-- Classification part of `AudioRecorder.analyzeAudio` (lines 160-219),
as a function of the frame RMS value `rms = Math.sqrt(sumSquares/length)`,
the raw frame, and the analyser byte spectrum (`none` when `this.analyser`
is null).  The silence check precedes all spectral analysis; the spectral
centroid defensively defaults to `0` when the total spectral weight is zero.
When the frame is empty, `zcrRatio` is `0/0`: JavaScript produces `NaN`,
whose comparison `NaN > 0.3` is false, and rational division by zero
produces `0`, whose comparison is likewise false, so the branch agrees. -/
def classifyFrame (rms : ℚ) (frame : List ℚ) (spectrum : Option (List ℕ)) :
    AudioAnalysisStatus :=
  if rms < silenceThreshold then .silence
  else
    match spectrum with
    | some bytes =>
        let weightedSum : ℕ := weightedSumFn bytes
        let totalWeight : ℕ := bytes.sum
        let centroid : ℚ := if 0 < totalWeight then (weightedSum : ℚ) / totalWeight else 0
        let zcrRatio : ℚ := (zcrCount frame : ℚ) / frame.length
        if 60 < centroid ∧ (0.3 : ℚ) < zcrRatio then .music_noise else .speech
    | none => .speech

/-- `AudioRecorder.analyzeAudio` (lines 142-220) as observed through its
outputs: the returned classification label together with the volume value
emitted through `onVolumeChange` (line 156: `Math.min(100, Math.round(rms *
400))`, emitted before the silence check and independent of the label). -/
def analyzeAudio (rms : ℚ) (frame : List ℚ) (spectrum : Option (List ℕ)) :
    AudioAnalysisStatus × ℤ :=
  (classifyFrame rms frame spectrum, min 100 (jsRound (rms * 400)))

-- scratch checks
example : floatTo16BitPCMSample (1/2) = 16383 := by
  norm_num [floatTo16BitPCMSample, toInt16, truncTowardZero]
example : jsRound ((1/2) * 0x7FFF) = 16384 := by
  norm_num [jsRound]
example : floatTo16BitPCMSample 2 = 0x7FFF := by
  norm_num [floatTo16BitPCMSample, toInt16, truncTowardZero]
example : floatTo16BitPCMSample (-2) = -0x8000 := by
  norm_num [floatTo16BitPCMSample, toInt16, truncTowardZero, Int.ceil_neg]
example : floatTo16BitPCMSample (-1/2) = -16384 := by
  norm_num [floatTo16BitPCMSample, toInt16, truncTowardZero, Int.ceil_neg]
example : (analyzeAudio 1 [1] (some [0, 0])).1 = .speech := by
  norm_num [analyzeAudio, classifyFrame, silenceThreshold, zcrCount,
    weightedSumFn, weightedSumFrom]
example : (analyzeAudio 0.001 [1, -1, 1] (some [200, 200, 200])).1 = .silence := by
  norm_num [analyzeAudio, classifyFrame, silenceThreshold]

/-! ## Session controller state (usePushToTalk.ts) -/

/-- Connection state enum of `PushToTalkState.connectionState`. -/
inductive ConnState
  | disconnected
  | connecting
  | connected
deriving DecidableEq, Repr

/-- History entry `SessionRecord` (usePushToTalk.ts lines 12-18). -/
structure SessionRecord where
  id : String
  timestamp : ℤ
  text : String
  duration : ℚ
  wordCount : ℕ
deriving DecidableEq, Repr

/-- The controller state `PushToTalkState` (usePushToTalk.ts lines 20-35). -/
structure PTTState where
  isRecording : Bool
  transcript : String
  interimTranscript : String
  error : Option String
  connectionState : ConnState
  autoInsert : Bool
  history : List SessionRecord
  statusMessage : Option String
  audioStatus : AudioAnalysisStatus
  sessionDuration : ℤ
  wordCount : ℕ
  charCount : ℕ
  volume : ℤ
deriving DecidableEq, Repr

/-- Initial `useState` value (usePushToTalk.ts lines 38-52). -/
def initialState : PTTState where
  isRecording := false
  transcript := ""
  interimTranscript := ""
  error := none
  connectionState := .disconnected
  autoInsert := false
  history := []
  statusMessage := none
  audioStatus := .silence
  sessionDuration := 0
  wordCount := 0
  charCount := 0
  volume := 0

/-- JavaScript `String.prototype.trim`: strip leading and trailing
whitespace.  Implemented structurally over the character list so that it
evaluates by kernel reduction. -/
def jsTrim (s : String) : String :=
  String.mk (((s.data.dropWhile (·.isWhitespace)).reverse.dropWhile
    (·.isWhitespace)).reverse)

/-- Character-predicate split of a character list, the splitting underlying
`split(/\s+/)`: every split produces the (possibly empty) pieces between
matching characters. -/
def splitChar (p : Char → Bool) : List Char → List (List Char)
  | [] => [[]]
  | c :: rest =>
      match splitChar p rest with
      | [] => [[]]
      | w :: ws => if p c then [] :: w :: ws else (c :: w) :: ws

/-- Word count used for live stats and history records (usePushToTalk.ts
lines 105 and 244): `fullText.trim().split(/\s+/).filter(w => w.length >
0).length`.  A regex split on runs of whitespace followed by the non-empty
filter equals a per-character whitespace split followed by the same filter. -/
def countWords (s : String) : ℕ :=
  ((splitChar (·.isWhitespace) (jsTrim s).data).filter
    (fun w => w.length > 0)).length

/-- Occurrence test of `pat` inside `l`, by checking a prefix match at every
suffix. -/
def containsSub (pat : List Char) : List Char → Bool
  | [] => pat.isPrefixOf []
  | c :: rest => pat.isPrefixOf (c :: rest) || containsSub pat rest

/-- JavaScript substring containment `s.includes(pat)`. -/
def jsIncludes (s pat : String) : Bool := containsSub pat.data s.data

/-- JavaScript `String.prototype.toLowerCase`, restricted to per-character
lowering (the trigger phrases compared against are ASCII). -/
def jsToLower (s : String) : String := String.mk (s.data.map Char.toLower)

/-- JavaScript `reason || null` coercion on an optional string argument:
an absent or empty string becomes null. -/
def jsOrNull (r : Option String) : Option String :=
  match r with
  | some s => if s = "" then none else some s
  | none => none

/-- First `setState` of `startRecording` (usePushToTalk.ts lines 181-189):
mark recording, clear error and status message, clear the committed
transcript (the `transcript: ''` entry on line 186 is live code; the
trailing "let's keep" remark is only a comment), and reset the session
duration. -/
def startBeginUpd (st : PTTState) : PTTState :=
  { st with isRecording := true, error := none, statusMessage := none,
            transcript := "", sessionDuration := 0 }

/-- The `setState` before `deepgram.connect` (line 208). -/
def setConnectingUpd (st : PTTState) : PTTState :=
  { st with connectionState := .connecting }

/-- The `setState` after `deepgram.connect` resolves (line 210). -/
def setConnectedUpd (st : PTTState) : PTTState :=
  { st with connectionState := .connected }

/-- The `catch` handler of `startRecording` (lines 213-221): recording flag
cleared, connection state forced to disconnected, error recorded. -/
def startFailUpd (msg : String) (st : PTTState) : PTTState :=
  { st with isRecording := false, connectionState := .disconnected,
            error := some msg }

/-- The 1-second timer tick (lines 195-200): recompute the elapsed whole
seconds `Math.floor((Date.now() - startTimeRef.current) / 1000)`. -/
def tickUpd (now startTime : ℤ) (st : PTTState) : PTTState :=
  { st with sessionDuration := (now - startTime) / 1000 }

/-- Volume callback of the recorder (lines 164-173). -/
def volumeUpd (v : ℤ) (st : PTTState) : PTTState := { st with volume := v }

/-- Status callback of the recorder (lines 160-163). -/
def statusUpd (s : AudioAnalysisStatus) (st : PTTState) : PTTState :=
  { st with audioStatus := s }

/-- Error callback handed to `DeepgramService` (line 139). -/
def errorUpd (e : String) (st : PTTState) : PTTState := { st with error := some e }

/-- Silence-timeout callback of the recorder (lines 152-159). -/
def silenceMsgUpd (st : PTTState) : PTTState :=
  { st with statusMessage := some "Paused due to silence" }

/-- The transcript-event `setState` of the `DeepgramService` callback
(usePushToTalk.ts lines 98-124): on a final event the text is appended to
the committed transcript (space-joined when the committed transcript is
non-empty) and the interim transcript is cleared; on an interim event the
interim transcript is replaced wholesale.  Word/char counts are recomputed
over the full text either way. -/
def transcriptUpd (text : String) (isFinal : Bool) (st : PTTState) : PTTState :=
  let newTranscript :=
    if isFinal then (if st.transcript ≠ "" then st.transcript ++ " " ++ text else text)
    else st.transcript
  let fullText := if isFinal then newTranscript else newTranscript ++ " " ++ text
  let words := countWords fullText
  let chars := fullText.length
  if isFinal then
    { st with transcript := newTranscript, interimTranscript := "",
              wordCount := words, charCount := chars }
  else
    { st with interimTranscript := text, wordCount := words, charCount := chars }

/-- Voice-command test on a final text (lines 127-137): lower-case, trim,
then look for either fixed trigger phrase. -/
def isVoiceCommand (text : String) : Bool :=
  let lower := jsTrim (jsToLower text)
  jsIncludes lower "clear transcript" || jsIncludes lower "delete everything"

/-- The clearing `setState` run when a voice command is detected (line 133). -/
def voiceClearUpd (st : PTTState) : PTTState :=
  { st with transcript := "", interimTranscript := "", wordCount := 0,
            charCount := 0 }

/-- Full processing of one transcript event by the `onTranscript` callback:
the stats/merge `setState`, followed (for final events only) by the
voice-command check and its clearing `setState`. -/
def onTranscriptEvent (text : String) (isFinal : Bool) (st : PTTState) : PTTState :=
  let st1 := transcriptUpd text isFinal st
  if isFinal then (if isVoiceCommand text then voiceClearUpd st1 else st1) else st1

/-- Full text computed by `handleStop` (line 236): committed transcript,
space-joined with the interim transcript when the latter is non-empty. -/
def stopFullText (st : PTTState) : String :=
  if st.interimTranscript ≠ "" then st.transcript ++ " " ++ st.interimTranscript
  else st.transcript

/-- History record built by `handleStop` (lines 244-251). -/
def stopRecord (now startTime : ℤ) (st : PTTState) : SessionRecord where
  id := toString now
  timestamp := now
  text := jsTrim (stopFullText st)
  duration := ((now : ℚ) - startTime) / 1000
  wordCount := countWords (stopFullText st)

/-- The `setState` of `handleStop` (usePushToTalk.ts lines 232-262): a no-op
unless currently recording; otherwise stop the session, force the connection
state to disconnected, clear the interim transcript, and prepend a history
record exactly when the trimmed full text is non-empty. -/
def handleStopUpd (now startTime : ℤ) (reason : Option String) (st : PTTState) :
    PTTState :=
  if st.isRecording = false then st
  else
    { st with isRecording := false, connectionState := .disconnected,
              interimTranscript := "", statusMessage := jsOrNull reason,
              history :=
                if jsTrim (stopFullText st) ≠ "" then
                  stopRecord now startTime st :: st.history
                else st.history,
              audioStatus := .silence }

-- scratch checks
example : countWords "  foo   bar " = 2 := by decide
example : countWords "   " = 0 := by decide
example : jsIncludes "please clear transcript now" "clear transcript" = true := by
  decide
example : isVoiceCommand "foo" = false := by decide
example : (onTranscriptEvent "bar" true (onTranscriptEvent "foo" true
    initialState)).transcript = "foo bar" := by decide

/-! ## AudioRecorder resource handles (audioRecorder.ts) -/

/-- Resource handles of an `AudioRecorder` instance, one flag per nullable
field that `stop()` inspects (`mediaStream`, `processor`, `input`,
`audioContext`); `true` means the handle is non-null. -/
structure RecorderState where
  mediaStream : Bool
  processor : Bool
  input : Bool
  audioContext : Bool
deriving DecidableEq, Repr

/-- Observable side effects of recorder lifecycle methods. -/
inductive RecAction
  | stopTracks
  | disconnectProcessor
  | disconnectInput
  | closeContext
  | acquireCapture
deriving DecidableEq, Repr

/-- A recorder on which capture was never started: every handle is null. -/
def neverStarted : RecorderState where
  mediaStream := false
  processor := false
  input := false
  audioContext := false

/-- `AudioRecorder.stop` (audioRecorder.ts lines 102-122): each non-null
handle is released (tracks stopped, nodes disconnected, context closed) and
nulled; null handles are skipped entirely. -/
def recorderStop (r : RecorderState) : RecorderState × List RecAction :=
  let p1 := if r.mediaStream then (false, [RecAction.stopTracks])
            else (r.mediaStream, [])
  let p2 := if r.processor then (false, [RecAction.disconnectProcessor])
            else (r.processor, [])
  let p3 := if r.input then (false, [RecAction.disconnectInput])
            else (r.input, [])
  let p4 := if r.audioContext then (false, [RecAction.closeContext])
            else (r.audioContext, [])
  (⟨p1.1, p2.1, p3.1, p4.1⟩, p1.2 ++ p2.2 ++ p3.2 ++ p4.2)

/-- Successful path of `AudioRecorder.start` (audioRecorder.ts lines 48-92):
when a media stream already exists, `stop()` runs first; then a fresh media
stream, audio context and script processor are acquired (`input` is never
assigned by `start`). -/
def recorderStart (r : RecorderState) : RecorderState × List RecAction :=
  let cleanup := if r.mediaStream then recorderStop r else (r, [])
  ({ cleanup.1 with mediaStream := true, processor := true, audioContext := true },
   cleanup.2 ++ [RecAction.acquireCapture])

/-! ## DeepgramService (deepgramService.ts) -/

/-- WebSocket ready states relevant to the service. -/
inductive SocketReady
  | connectingWs
  | openWs
  | closingWs
  | closedWs
deriving DecidableEq, Repr

/-- Connection state of a `DeepgramService` instance: the nullable `socket`
field together with its ready state. -/
structure DgState where
  socket : Option SocketReady
deriving DecidableEq, Repr

/-- Observable side effects of `DeepgramService.disconnect`. -/
inductive DgAction
  | sendCloseStream
  | closeSocket
deriving DecidableEq, Repr

/-- `DeepgramService.disconnect` (deepgramService.ts lines 95-104): when a
socket exists and is open, send the `CloseStream` notification and close it;
either way the socket field is nulled.  With no socket, nothing happens. -/
def dgDisconnect (d : DgState) : DgState × List DgAction :=
  match d.socket with
  | none => (d, [])
  | some ready =>
      if ready = .openWs then
        (⟨none⟩, [DgAction.sendCloseStream, DgAction.closeSocket])
      else (⟨none⟩, [])

/-- One alternative of an inbound Deepgram message. -/
structure DgAlternative where
  transcript : String
deriving DecidableEq, Repr

/-- The `channel` object of an inbound Deepgram message. -/
structure DgChannel where
  alternatives : List DgAlternative
deriving DecidableEq, Repr

/-- An inbound Deepgram message after JSON parsing, restricted to the fields
the `onmessage` handler reads; `channel := none` covers messages without the
recognized shape (metadata, malformed alternatives, and so on). -/
structure DgMessage where
  channel : Option DgChannel
  is_final : Bool
deriving DecidableEq, Repr

/-- The `onmessage` handler of `DeepgramService.connect` (deepgramService.ts
lines 57-71): a transcript callback `(text, is_final)` fires only when the
message has the recognized shape, `alternatives[0]` exists, and its
`transcript` is truthy (a non-empty string); otherwise no callback fires. -/
def handleMessage (m : DgMessage) : Option (String × Bool) :=
  match m.channel with
  | none => none
  | some ch =>
      match ch.alternatives with
      | [] => none
      | alt :: _ =>
          if alt.transcript = "" then none
          else some (alt.transcript, m.is_final)

/-- Effect of one inbound Deepgram message on the controller state: the
transcript callback (usePushToTalk.ts lines 97-137) runs exactly when
`handleMessage` yields an event. -/
def processMessage (m : DgMessage) (st : PTTState) : PTTState :=
  match handleMessage m with
  | none => st
  | some (t, f) => onTranscriptEvent t f st

/-! ## Controller transition system

`startRecording` is an async function: it performs its `setState` calls at
distinct control points separated by `await recorder.start(...)` and `await
deepgram.connect(...)`.  A configuration pairs the React state with the
control point of the in-flight `startRecording` call, and `Step` relates
configurations reachable in one event-loop turn.  Recorder callbacks
(volume, status, silence), Deepgram callbacks (transcript, error) and timer
ticks can fire at any control point.  `startRecording` itself is dispatched
from the UI only when not recording (App.tsx `toggleRecording`) and one
start attempt at a time; `handleStop`, by contrast, is dispatchable at ANY
control point — in particular while a capture or connect `await` is pending
— and the source has no cancellation mechanism, so the pending continuation
still runs after the stop.  This reproduces the stop/start-up races of the
code (for example a `disconnected → connected` move when the `onopen`
resolution of a stopped connect attempt lands late). -/

/-- Control point of the in-flight `startRecording` call. -/
inductive Phase
  | idle
  | awaitCapture
  | awaitConnect
deriving DecidableEq, Repr

/-- A controller configuration: React state plus start-up control point. -/
structure Config where
  st : PTTState
  phase : Phase
deriving DecidableEq, Repr

/-- Event labels of the transition system, one per asynchronous source: the
UI start command, the resolutions of the two `await`s of `startRecording`
(capture and connect, each with success and failure outcomes, and capture
success split on `deepgram.isConnected()`), the stop command, inbound
Deepgram messages, recorder callbacks and timer ticks. -/
inductive Evt
  | start
  | capOkConn
  | capOkFresh
  | capFail (msg : String)
  | connOk
  | connFail (msg : String)
  | stopReq (now startTime : ℤ) (reason : Option String)
  | msgEvt (m : DgMessage)
  | volEvt (v : ℤ)
  | statEvt (s : AudioAnalysisStatus)
  | tick (now startTime : ℤ)
  | errEvt (e : String)
  | silEvt

/-- Small-step labelled transition relation over controller configurations. -/
inductive Step : Evt → Config → Config → Prop
  | startBegin (st : PTTState) (h : st.isRecording = false) :
      Step .start ⟨st, .idle⟩ ⟨startBeginUpd st, .awaitCapture⟩
  | captureOkConnected (st : PTTState) :
      Step .capOkConn ⟨st, .awaitCapture⟩ ⟨st, .idle⟩
  | captureOkFresh (st : PTTState) :
      Step .capOkFresh ⟨st, .awaitCapture⟩ ⟨setConnectingUpd st, .awaitConnect⟩
  | captureFail (st : PTTState) (msg : String) :
      Step (.capFail msg) ⟨st, .awaitCapture⟩ ⟨startFailUpd msg st, .idle⟩
  | connectOk (st : PTTState) :
      Step .connOk ⟨st, .awaitConnect⟩ ⟨setConnectedUpd st, .idle⟩
  | connectFail (st : PTTState) (msg : String) :
      Step (.connFail msg) ⟨st, .awaitConnect⟩ ⟨startFailUpd msg st, .idle⟩
  | stop (st : PTTState) (now startTime : ℤ) (reason : Option String)
      (ph : Phase) :
      Step (.stopReq now startTime reason) ⟨st, ph⟩
        ⟨handleStopUpd now startTime reason st, ph⟩
  | transcriptEvt (st : PTTState) (m : DgMessage) (ph : Phase) :
      Step (.msgEvt m) ⟨st, ph⟩ ⟨processMessage m st, ph⟩
  | volumeEvt (st : PTTState) (v : ℤ) (ph : Phase) :
      Step (.volEvt v) ⟨st, ph⟩ ⟨volumeUpd v st, ph⟩
  | statusEvt (st : PTTState) (s : AudioAnalysisStatus) (ph : Phase) :
      Step (.statEvt s) ⟨st, ph⟩ ⟨statusUpd s st, ph⟩
  | tickEvt (st : PTTState) (now startTime : ℤ) (ph : Phase) :
      Step (.tick now startTime) ⟨st, ph⟩ ⟨tickUpd now startTime st, ph⟩
  | errorEvt (st : PTTState) (e : String) (ph : Phase) :
      Step (.errEvt e) ⟨st, ph⟩ ⟨errorUpd e st, ph⟩
  | silenceEvt (st : PTTState) (ph : Phase) :
      Step .silEvt ⟨st, ph⟩ ⟨silenceMsgUpd st, ph⟩

/-- The initial configuration: initial React state, no start in flight. -/
def initConfig : Config := ⟨initialState, .idle⟩

/-- Configurations reachable from the initial configuration under all
events, stop/start-up races included. -/
inductive Reach : Config → Prop
  | init : Reach initConfig
  | step {e : Evt} {c c' : Config} : Reach c → Step e c c' → Reach c'

/-- A step is serialized when it is not a stop request issued while a start
attempt is in flight — the regime the specification's state machine
describes (start/stop requests do not overlap the `Starting` transition). -/
def SerialEvt : Evt → Config → Prop
  | .stopReq _ _ _, c => c.phase = .idle
  | _, _ => True

/-- Configurations reachable using serialized steps only. -/
inductive ReachSerial : Config → Prop
  | init : ReachSerial initConfig
  | step {e : Evt} {c c' : Config} :
      ReachSerial c → Step e c c' → SerialEvt e c → ReachSerial c'

/-- Structural invariant of serialized-reachable configurations: a
non-recording state is disconnected, the two start-up phases pin the
connection state, and no settled configuration is left in `connecting`.
(Mid-startup stop races break the first component, which is why it is
proved for serialized runs only.) -/
def Inv (c : Config) : Prop :=
  (c.st.isRecording = false → c.st.connectionState = .disconnected) ∧
  (c.phase = .awaitCapture →
     c.st.connectionState = .disconnected ∧ c.st.isRecording = true) ∧
  (c.phase = .awaitConnect →
     c.st.connectionState = .connecting ∧ c.st.isRecording = true) ∧
  (c.phase = .idle → c.st.connectionState ≠ .connecting)

@[simp] lemma startBeginUpd_isRecording (st : PTTState) :
    (startBeginUpd st).isRecording = true := rfl

@[simp] lemma startBeginUpd_connectionState (st : PTTState) :
    (startBeginUpd st).connectionState = st.connectionState := rfl

@[simp] lemma setConnectingUpd_isRecording (st : PTTState) :
    (setConnectingUpd st).isRecording = st.isRecording := rfl

@[simp] lemma setConnectingUpd_connectionState (st : PTTState) :
    (setConnectingUpd st).connectionState = .connecting := rfl

@[simp] lemma setConnectedUpd_isRecording (st : PTTState) :
    (setConnectedUpd st).isRecording = st.isRecording := rfl

@[simp] lemma setConnectedUpd_connectionState (st : PTTState) :
    (setConnectedUpd st).connectionState = .connected := rfl

@[simp] lemma startFailUpd_isRecording (msg : String) (st : PTTState) :
    (startFailUpd msg st).isRecording = false := rfl

@[simp] lemma startFailUpd_connectionState (msg : String) (st : PTTState) :
    (startFailUpd msg st).connectionState = .disconnected := rfl

@[simp] lemma tickUpd_isRecording (now startTime : ℤ) (st : PTTState) :
    (tickUpd now startTime st).isRecording = st.isRecording := rfl

@[simp] lemma tickUpd_connectionState (now startTime : ℤ) (st : PTTState) :
    (tickUpd now startTime st).connectionState = st.connectionState := rfl

@[simp] lemma volumeUpd_isRecording (v : ℤ) (st : PTTState) :
    (volumeUpd v st).isRecording = st.isRecording := rfl

@[simp] lemma volumeUpd_connectionState (v : ℤ) (st : PTTState) :
    (volumeUpd v st).connectionState = st.connectionState := rfl

@[simp] lemma statusUpd_isRecording (s : AudioAnalysisStatus) (st : PTTState) :
    (statusUpd s st).isRecording = st.isRecording := rfl

@[simp] lemma statusUpd_connectionState (s : AudioAnalysisStatus) (st : PTTState) :
    (statusUpd s st).connectionState = st.connectionState := rfl

@[simp] lemma errorUpd_isRecording (e : String) (st : PTTState) :
    (errorUpd e st).isRecording = st.isRecording := rfl

@[simp] lemma errorUpd_connectionState (e : String) (st : PTTState) :
    (errorUpd e st).connectionState = st.connectionState := rfl

@[simp] lemma silenceMsgUpd_isRecording (st : PTTState) :
    (silenceMsgUpd st).isRecording = st.isRecording := rfl

@[simp] lemma silenceMsgUpd_connectionState (st : PTTState) :
    (silenceMsgUpd st).connectionState = st.connectionState := rfl

@[simp] lemma onTranscriptEvent_isRecording (t : String) (f : Bool)
    (st : PTTState) :
    (onTranscriptEvent t f st).isRecording = st.isRecording := by
  by_cases hvc : isVoiceCommand t
  · cases f <;> simp [onTranscriptEvent, transcriptUpd, voiceClearUpd, hvc]
  · cases f <;> simp [onTranscriptEvent, transcriptUpd, voiceClearUpd, hvc]

@[simp] lemma onTranscriptEvent_connectionState (t : String) (f : Bool)
    (st : PTTState) :
    (onTranscriptEvent t f st).connectionState = st.connectionState := by
  by_cases hvc : isVoiceCommand t
  · cases f <;> simp [onTranscriptEvent, transcriptUpd, voiceClearUpd, hvc]
  · cases f <;> simp [onTranscriptEvent, transcriptUpd, voiceClearUpd, hvc]

@[simp] lemma processMessage_isRecording (m : DgMessage) (st : PTTState) :
    (processMessage m st).isRecording = st.isRecording := by
  unfold processMessage
  cases h : handleMessage m with
  | none => rfl
  | some tf => obtain ⟨t, f⟩ := tf; simp

@[simp] lemma processMessage_connectionState (m : DgMessage) (st : PTTState) :
    (processMessage m st).connectionState = st.connectionState := by
  unfold processMessage
  cases h : handleMessage m with
  | none => rfl
  | some tf => obtain ⟨t, f⟩ := tf; simp

lemma inv_init : Inv initConfig := by
  simp [Inv, initConfig, initialState]

lemma inv_preserved {e : Evt} {c c' : Config} (hInv : Inv c) (hs : Step e c c')
    (hser : SerialEvt e c) : Inv c' := by
  obtain ⟨h1, h2, h3, h4⟩ := hInv
  unfold Inv at *
  cases hs with
  | startBegin st h => clear hser; simp_all
  | captureOkConnected st => clear hser; simp_all
  | captureOkFresh st => clear hser; simp_all
  | captureFail st msg => clear hser; simp_all
  | connectOk st => clear hser; simp_all
  | connectFail st msg => clear hser; simp_all
  | stop st now startTime reason ph =>
      have hidle : ph = .idle := hser
      subst hidle
      clear hser
      by_cases hr : st.isRecording = false
      · simp_all [handleStopUpd, hr]
      · simp_all [handleStopUpd, hr]
  | transcriptEvt st m ph => clear hser; simp_all
  | volumeEvt st v ph => clear hser; simp_all
  | statusEvt st s ph => clear hser; simp_all
  | tickEvt st now startTime ph => clear hser; simp_all
  | errorEvt st e ph => clear hser; simp_all
  | silenceEvt st ph => clear hser; simp_all

lemma reach_serial_inv {c : Config} (h : ReachSerial c) : Inv c := by
  induction h with
  | init => exact inv_init
  | step _ hs hser ih => exact inv_preserved ih hs hser

/-! ## Claims -/

/-- Connection-state edges the specification declares valid. -/
def specEdge (a b : ConnState) : Prop :=
  (a = .disconnected ∧ b = .connecting) ∨
  (a = .connecting ∧ b = .connected) ∨
  (a = .connected ∧ b = .disconnected)

/-- A controller state mid-recording, for concrete instantiations. -/
def recordingSample : PTTState :=
  { initialState with isRecording := true, sessionDuration := 5,
                      connectionState := .connected }

/-- C1 (counterexample): it is false that every reachable controller step
changes the connection state only along `disconnected → connecting →
connected → disconnected`: starting from the initial state, begin a session,
let capture succeed, and let the Deepgram connection attempt fail — the
catch handler of `startRecording` moves the connection state from
`connecting` straight to `disconnected`. -/
theorem C1_counterexample :
    ¬ (∀ (e : Evt) (c c' : Config), Reach c → Step e c c' →
        c.st.connectionState ≠ c'.st.connectionState →
        specEdge c.st.connectionState c'.st.connectionState) := by
  intro hclaim
  have hr2 : Reach ⟨setConnectingUpd (startBeginUpd initialState), .awaitConnect⟩ :=
    Reach.step (Reach.step Reach.init (Step.startBegin initialState rfl))
      (Step.captureOkFresh (startBeginUpd initialState))
  have h := hclaim _ _ _ hr2
    (Step.connectFail (setConnectingUpd (startBeginUpd initialState))
      "WebSocket connection failed")
    (by decide)
  simp [specEdge] at h

/-- The stop/start-up race of the unrestricted system: a stop request issued
while the connect `await` is pending sets the connection state to
`disconnected` (and `disconnect()` only nulls the still-handshaking socket
without closing it), after which the late `onopen` resolution of that
`await` (usePushToTalk.ts line 210) sets it to `connected` — a reachable
`disconnected → connected` move.  This is why the edge-discipline theorem
below carries the serialized-run hypothesis. -/
lemma race_disconnected_to_connected :
    ∃ c c' : Config, Reach c ∧ Step Evt.connOk c c' ∧
      c.st.connectionState = .disconnected ∧
      c'.st.connectionState = .connected := by
  refine ⟨⟨handleStopUpd 5000 1000 none
      (setConnectingUpd (startBeginUpd initialState)), .awaitConnect⟩,
    ⟨setConnectedUpd (handleStopUpd 5000 1000 none
      (setConnectingUpd (startBeginUpd initialState))), .idle⟩, ?_, ?_, ?_, ?_⟩
  · exact Reach.step (Reach.step (Reach.step Reach.init
      (Step.startBegin initialState rfl))
      (Step.captureOkFresh (startBeginUpd initialState)))
      (Step.stop (setConnectingUpd (startBeginUpd initialState)) 5000 1000
        none .awaitConnect)
  · exact Step.connectOk _
  · decide
  · decide

/-- C1 (amended): provided no stop request is issued while a start attempt
is in flight, the connection state changes only along the edges
`disconnected → connecting`, `connecting → connected`, `connected →
disconnected`, except that `connecting → disconnected` additionally occurs
when the start-up attempt fails (the catch handler of `startRecording`
reverts straight to `disconnected`).  Without that proviso the mid-startup
stop races produce further edges (see the reachable `disconnected →
connected` move above), so the serialized-run hypothesis is necessary. -/
theorem C1_connection_transitions_amended {e : Evt} {c c' : Config}
    (hre : ReachSerial c) (hs : Step e c c') (hser : SerialEvt e c)
    (hne : c.st.connectionState ≠ c'.st.connectionState) :
    specEdge c.st.connectionState c'.st.connectionState ∨
    (c.st.connectionState = .connecting ∧
     c'.st.connectionState = .disconnected) := by
  obtain ⟨h1, h2, h3, h4⟩ := reach_serial_inv hre
  cases hs with
  | startBegin st h => exact absurd (startBeginUpd_connectionState st).symm hne
  | captureOkConnected st => exact absurd rfl hne
  | captureOkFresh st => exact Or.inl (Or.inl ⟨(h2 rfl).1, rfl⟩)
  | captureFail st msg => exact absurd (h2 rfl).1 hne
  | connectOk st => exact Or.inl (Or.inr (Or.inl ⟨(h3 rfl).1, rfl⟩))
  | connectFail st msg => exact Or.inr ⟨(h3 rfl).1, rfl⟩
  | stop st now startTime reason ph =>
      have hidle : ph = .idle := hser
      subst hidle
      by_cases hr : st.isRecording = false
      · rw [show handleStopUpd now startTime reason st = st from by
          simp [handleStopUpd, hr]] at hne
        exact absurd rfl hne
      · have hconn : (handleStopUpd now startTime reason st).connectionState =
            .disconnected := by simp [handleStopUpd, hr]
        rw [hconn] at hne ⊢
        rcases hc : st.connectionState with _ | _ | _
        · exact absurd hc hne
        · exact absurd hc (h4 rfl)
        · exact Or.inl (Or.inr (Or.inr ⟨rfl, rfl⟩))
  | transcriptEvt st m ph =>
      exact absurd (processMessage_connectionState m st).symm hne
  | volumeEvt st v ph => exact absurd rfl hne
  | statusEvt st s ph => exact absurd rfl hne
  | tickEvt st now startTime ph => exact absurd rfl hne
  | errorEvt st e ph => exact absurd rfl hne
  | silenceEvt st ph => exact absurd rfl hne

/-- Witness for C1 (amended) at the concrete serialized reachable step that
moves the initial session from `disconnected` to `connecting`. -/
theorem C1_connection_transitions_amended_witness :
    specEdge (startBeginUpd initialState).connectionState
      (setConnectingUpd (startBeginUpd initialState)).connectionState ∨
    ((startBeginUpd initialState).connectionState = ConnState.connecting ∧
     (setConnectingUpd (startBeginUpd initialState)).connectionState =
       ConnState.disconnected) :=
  C1_connection_transitions_amended
    (ReachSerial.step ReachSerial.init (Step.startBegin initialState rfl)
      trivial)
    (Step.captureOkFresh (startBeginUpd initialState)) trivial (by decide)

/-- C2 (counterexample): invoking `startRecording` while already recording
is not a state-preserving no-op: on a recording state with elapsed duration
5, the first `setState` of `startRecording` resets the duration to 0. -/
theorem C2_counterexample :
    ¬ (∀ st : PTTState, st.isRecording = true → startBeginUpd st = st) := by
  intro h
  exact absurd (h recordingSample rfl) (by decide)

/-- C2 (amended): `startRecording` has no recording guard: invoked while a
recording is in progress it restarts the session bookkeeping (duration reset
to 0, committed transcript cleared, error and status message cleared) while
keeping the history; at most one active capture nevertheless exists, because
`AudioRecorder.start` stops an existing capture (releasing its tracks)
before acquiring a new one. -/
theorem C2_start_while_recording_amended (st : PTTState)
    (_hrec : st.isRecording = true) (r : RecorderState)
    (hr : r.mediaStream = true) :
    (startBeginUpd st).isRecording = true ∧
    (startBeginUpd st).sessionDuration = 0 ∧
    (startBeginUpd st).error = none ∧
    (startBeginUpd st).statusMessage = none ∧
    (startBeginUpd st).transcript = "" ∧
    (startBeginUpd st).history = st.history ∧
    RecAction.stopTracks ∈ (recorderStart r).2 ∧
    (recorderStart r).1.mediaStream = true := by
  refine ⟨rfl, rfl, rfl, rfl, rfl, rfl, ?_, rfl⟩
  simp [recorderStart, recorderStop, hr]

/-- Witness for C2 (amended) at a concrete recording state and a recorder
with an active media stream. -/
theorem C2_start_while_recording_amended_witness :
    (startBeginUpd recordingSample).isRecording = true ∧
    (startBeginUpd recordingSample).sessionDuration = 0 ∧
    (startBeginUpd recordingSample).error = none ∧
    (startBeginUpd recordingSample).statusMessage = none ∧
    (startBeginUpd recordingSample).transcript = "" ∧
    (startBeginUpd recordingSample).history = recordingSample.history ∧
    RecAction.stopTracks ∈ (recorderStart ⟨true, true, false, true⟩).2 ∧
    (recorderStart ⟨true, true, false, true⟩).1.mediaStream = true :=
  C2_start_while_recording_amended recordingSample rfl ⟨true, true, false, true⟩ rfl

/-- C3 (counterexample): the PCM encoder does not round: at the sample
`s = 1/2` the code stores `trunc(0.5 * 0x7FFF) = 16383` into the
`Int16Array`, while `round(0.5 * 0x7FFF) = 16384`. -/
theorem C3_counterexample :
    ¬ (∀ s : ℚ,
        (0 ≤ s → s ≤ 1 → floatTo16BitPCMSample s = jsRound (s * 0x7FFF)) ∧
        (-1 ≤ s → s < 0 → floatTo16BitPCMSample s = jsRound (s * 0x8000)) ∧
        (1 < s → floatTo16BitPCMSample s = 0x7FFF) ∧
        (s < -1 → floatTo16BitPCMSample s = -0x8000)) := by
  intro h
  have h12 := (h (1/2)).1 (by norm_num) (by norm_num)
  have hcode : floatTo16BitPCMSample (1/2) = 16383 := by
    norm_num [floatTo16BitPCMSample, toInt16, truncTowardZero]
  have hspec : jsRound ((1/2 : ℚ) * 0x7FFF) = 16384 := by norm_num [jsRound]
  rw [hcode, hspec] at h12
  exact absurd h12 (by norm_num)

lemma toInt16_eq_self {n : ℤ} (hl : -32768 ≤ n) (hu : n ≤ 32767) :
    toInt16 n = n := by
  unfold toInt16
  omega

/-- C3 (amended): for every input sample the PCM encoder outputs the
truncation toward zero (not the rounding) of the scaled clamped sample:
`trunc(s * 0x7FFF)` for `0 ≤ s ≤ 1`, `trunc(s * 0x8000)` for `-1 ≤ s < 0`,
and the clamped extremes `0x7FFF` / `-0x8000` for `|s| > 1`. -/
lemma floatTo16BitPCMSample_eq (x : ℚ) :
    floatTo16BitPCMSample x =
      toInt16 (truncTowardZero
        (if max (-1) (min 1 x) < 0 then max (-1) (min 1 x) * 32768
         else max (-1) (min 1 x) * 32767)) := rfl

theorem C3_pcm_encoding_amended (x : ℚ) :
    floatTo16BitPCMSample x =
      if x < -1 then -0x8000
      else if 1 < x then 0x7FFF
      else if x < 0 then truncTowardZero (x * 0x8000)
      else truncTowardZero (x * 0x7FFF) := by
  rw [floatTo16BitPCMSample_eq]
  by_cases hlo : x < -1
  · have hmin : min 1 x = x := min_eq_right (by linarith)
    have hmax : max (-1 : ℚ) x = -1 := max_eq_left (by linarith)
    rw [hmin, hmax, if_pos (by norm_num : (-1 : ℚ) < 0), if_pos hlo]
    norm_num [truncTowardZero, toInt16, Int.ceil_neg]
  · by_cases hhi : 1 < x
    · have hmin : min 1 x = 1 := min_eq_left (by linarith)
      have hmax : max (-1 : ℚ) 1 = 1 := max_eq_right (by norm_num)
      rw [hmin, hmax, if_neg (by norm_num : ¬ (1 : ℚ) < 0), if_neg hlo,
        if_pos hhi]
      norm_num [truncTowardZero, toInt16]
    · have hx1 : x ≤ 1 := le_of_not_lt hhi
      have hx2 : -1 ≤ x := le_of_not_lt hlo
      have hmin : min 1 x = x := min_eq_right hx1
      have hmax : max (-1 : ℚ) x = x := max_eq_right hx2
      rw [hmin, hmax, if_neg hlo, if_neg hhi]
      by_cases hneg : x < 0
      · rw [if_pos hneg, if_pos hneg]
        have harg : ¬ (0 : ℚ) ≤ x * 32768 := by nlinarith
        have hceil_lb : (-32768 : ℤ) ≤ ⌈x * 32768⌉ := by
          have : ((-32768 : ℤ) : ℚ) ≤ x * 32768 := by push_cast; nlinarith
          calc (-32768 : ℤ) = ⌈((-32768 : ℤ) : ℚ)⌉ := (Int.ceil_intCast _).symm
            _ ≤ ⌈x * 32768⌉ := Int.ceil_le_ceil this
        have hceil_ub : ⌈x * 32768⌉ ≤ 32767 := by
          have : x * 32768 ≤ ((32767 : ℤ) : ℚ) := by push_cast; nlinarith
          calc ⌈x * 32768⌉ ≤ ⌈((32767 : ℤ) : ℚ)⌉ := Int.ceil_le_ceil this
            _ = 32767 := Int.ceil_intCast _
        show toInt16 (truncTowardZero (x * 32768)) = truncTowardZero (x * 32768)
        rw [truncTowardZero, if_neg harg]
        exact toInt16_eq_self hceil_lb hceil_ub
      · rw [if_neg hneg, if_neg hneg]
        have hx0 : (0 : ℚ) ≤ x := le_of_not_lt hneg
        have harg : (0 : ℚ) ≤ x * 32767 := by positivity
        have hfl_lb : (0 : ℤ) ≤ ⌊x * 32767⌋ := Int.floor_nonneg.mpr harg
        have hfl_ub : ⌊x * 32767⌋ ≤ 32767 := by
          have : x * 32767 ≤ ((32767 : ℤ) : ℚ) := by push_cast; nlinarith
          calc ⌊x * 32767⌋ ≤ ⌊((32767 : ℤ) : ℚ)⌋ := Int.floor_le_floor this
            _ = 32767 := Int.floor_intCast _
        show toInt16 (truncTowardZero (x * 32767)) = truncTowardZero (x * 32767)
        rw [truncTowardZero, if_pos harg]
        exact toInt16_eq_self (by omega) hfl_ub

/-- C4 (confirmed): stopping a session appends exactly one history record
when the trimmed full text (committed plus pending, space-joined) is
non-empty, and leaves the history untouched when it is empty. -/
theorem C4_history_record_iff (st : PTTState) (h : st.isRecording = true)
    (now startTime : ℤ) (reason : Option String) :
    (jsTrim (stopFullText st) ≠ "" ∧
       (handleStopUpd now startTime reason st).history =
         stopRecord now startTime st :: st.history) ∨
    (jsTrim (stopFullText st) = "" ∧
       (handleStopUpd now startTime reason st).history = st.history) := by
  by_cases ht : jsTrim (stopFullText st) = ""
  · exact Or.inr ⟨ht, by simp [handleStopUpd, h, ht]⟩
  · exact Or.inl ⟨ht, by simp [handleStopUpd, h, ht]⟩

/-- Witness for C4 at a recording state with committed text and one with
whitespace-only text. -/
theorem C4_history_record_iff_witness :
    ((jsTrim (stopFullText { recordingSample with transcript := "hello world" }) ≠ "" ∧
       (handleStopUpd 7000 2000 none
           { recordingSample with transcript := "hello world" }).history =
         stopRecord 7000 2000 { recordingSample with transcript := "hello world" } ::
           ({ recordingSample with transcript := "hello world" } : PTTState).history) ∨
     (jsTrim (stopFullText { recordingSample with transcript := "hello world" }) = "" ∧
       (handleStopUpd 7000 2000 none
           { recordingSample with transcript := "hello world" }).history =
         ({ recordingSample with transcript := "hello world" } : PTTState).history)) ∧
    ((jsTrim (stopFullText { recordingSample with transcript := "   " }) ≠ "" ∧
       (handleStopUpd 7000 2000 none
           { recordingSample with transcript := "   " }).history =
         stopRecord 7000 2000 { recordingSample with transcript := "   " } ::
           ({ recordingSample with transcript := "   " } : PTTState).history) ∨
     (jsTrim (stopFullText { recordingSample with transcript := "   " }) = "" ∧
       (handleStopUpd 7000 2000 none
           { recordingSample with transcript := "   " }).history =
         ({ recordingSample with transcript := "   " } : PTTState).history)) :=
  ⟨C4_history_record_iff { recordingSample with transcript := "hello world" } rfl
      7000 2000 none,
   C4_history_record_iff { recordingSample with transcript := "   " } rfl
      7000 2000 none⟩

/-- C5 (confirmed): whenever the frame RMS is below the silence threshold,
`analyzeAudio` returns the label `silence` no matter what the frame samples
or the spectrum snapshot contain, and the volume value is still emitted. -/
theorem C5_silence_dominates (rms : ℚ) (frame : List ℚ)
    (spectrum : Option (List ℕ)) (h : rms < silenceThreshold) :
    (analyzeAudio rms frame spectrum).1 = .silence ∧
    (analyzeAudio rms frame spectrum).2 = min 100 (jsRound (rms * 400)) :=
  ⟨by simp [analyzeAudio, classifyFrame, h], rfl⟩

/-- Witness for C5 at a quiet frame that nevertheless has rich spectral
content and sign changes. -/
theorem C5_silence_dominates_witness :
    (analyzeAudio 0.001 [1, -1, 1] (some [200, 200, 200])).1 =
      AudioAnalysisStatus.silence ∧
    (analyzeAudio 0.001 [1, -1, 1] (some [200, 200, 200])).2 =
      min 100 (jsRound (0.001 * 400)) :=
  C5_silence_dominates 0.001 [1, -1, 1] (some [200, 200, 200])
    (by norm_num [silenceThreshold])

/-- C6 (confirmed): the emitted volume equals `min(100, round(rms * 400))`,
lies in `[0, 100]` for a non-negative RMS, and is monotone in the RMS. -/
theorem C6_volume_bounds_monotone (rms rms2 : ℚ) (frame : List ℚ)
    (spectrum : Option (List ℕ)) (h : 0 ≤ rms) (h2 : rms ≤ rms2) :
    (analyzeAudio rms frame spectrum).2 = min 100 (jsRound (rms * 400)) ∧
    0 ≤ (analyzeAudio rms frame spectrum).2 ∧
    (analyzeAudio rms frame spectrum).2 ≤ 100 ∧
    (analyzeAudio rms frame spectrum).2 ≤ (analyzeAudio rms2 frame spectrum).2 := by
  refine ⟨rfl, ?_, ?_, ?_⟩
  · have hfl : (0 : ℤ) ≤ jsRound (rms * 400) := by
      unfold jsRound
      refine Int.floor_nonneg.mpr ?_
      have : (0 : ℚ) ≤ rms * 400 := by positivity
      linarith
    exact le_min (by norm_num) hfl
  · exact min_le_left 100 (jsRound (rms * 400))
  · show min 100 (jsRound (rms * 400)) ≤ min 100 (jsRound (rms2 * 400))
    refine min_le_min le_rfl ?_
    unfold jsRound
    exact Int.floor_le_floor (by linarith)

/-- Witness for C6 at RMS values 0.01 and 0.5. -/
theorem C6_volume_bounds_monotone_witness :
    (analyzeAudio 0.01 [] none).2 = min 100 (jsRound (0.01 * 400)) ∧
    0 ≤ (analyzeAudio 0.01 [] none).2 ∧
    (analyzeAudio 0.01 [] none).2 ≤ 100 ∧
    (analyzeAudio 0.01 [] none).2 ≤ (analyzeAudio 0.5 [] none).2 :=
  C6_volume_bounds_monotone 0.01 0.5 [] none (by norm_num) (by norm_num)

/-- C7 (counterexample): it is false that a stop request in every
non-recording system state performs no side effects: `handleStop` calls
`recorder.stop()` unconditionally, and a non-recording state can hold a
live capture — the catch handler of `startRecording` (lines 213-222) clears
`isRecording` after a failed connect without ever stopping the recorder —
so the stop releases tracks and closes the audio context. -/
theorem C7_counterexample :
    ¬ (∀ (st : PTTState) (r : RecorderState) (d : DgState)
        (now startTime : ℤ) (reason : Option String),
        st.isRecording = false →
        handleStopUpd now startTime reason st = st ∧
        recorderStop r = (r, []) ∧
        dgDisconnect d = (d, [])) := by
  intro h
  exact absurd (h initialState ⟨true, true, false, true⟩ ⟨none⟩ 0 0 none
    rfl).2.1 (by decide)

/-- C7 (amended): a stop request while not recording leaves the controller
state unchanged, and the teardown calls it makes are no-ops precisely when
the resources are not held: `AudioRecorder.stop` performs no release action
if and only if every handle is null (in particular, on a never-started
recorder it is a no-op, not an error), and `DeepgramService.disconnect`
with no socket does nothing.  When a non-recording state still holds a live
capture — reachable via the connect-failure catch, which never stops the
recorder — the stop does release it. -/
theorem C7_stop_not_recording_amended (st : PTTState)
    (h : st.isRecording = false) (now startTime : ℤ) (reason : Option String)
    (r : RecorderState) :
    handleStopUpd now startTime reason st = st ∧
    recorderStop neverStarted = (neverStarted, []) ∧
    dgDisconnect ⟨none⟩ = (⟨none⟩, []) ∧
    ((recorderStop r).2 = [] ↔ r = neverStarted) := by
  refine ⟨by simp [handleStopUpd, h], by simp [recorderStop, neverStarted],
    rfl, ?_⟩
  rcases r with ⟨a, b, c, d⟩
  revert a b c d
  decide

/-- Witness for C7 (amended) at the initial (non-recording) state and a
recorder holding a live capture. -/
theorem C7_stop_not_recording_amended_witness :
    handleStopUpd 9000 1000 none initialState = initialState ∧
    recorderStop neverStarted = (neverStarted, []) ∧
    dgDisconnect ⟨none⟩ = (⟨none⟩, []) ∧
    ((recorderStop ⟨true, true, false, true⟩).2 = [] ↔
      (⟨true, true, false, true⟩ : RecorderState) = neverStarted) :=
  C7_stop_not_recording_amended initialState rfl 9000 1000 none
    ⟨true, true, false, true⟩

/-- C8 (confirmed): two consecutive final transcript events with non-command
texts, starting from an empty committed transcript, leave the committed
transcript equal to the two texts joined by exactly one space (the first
final text is taken as-is), and the pending transcript is cleared after each
final event. -/
theorem C8_final_events_space_joined (st : PTTState) (a b : String)
    (h0 : st.transcript = "") (ha : a ≠ "")
    (hca : isVoiceCommand a = false) (hcb : isVoiceCommand b = false) :
    (onTranscriptEvent a true st).transcript = a ∧
    (onTranscriptEvent a true st).interimTranscript = "" ∧
    (onTranscriptEvent b true (onTranscriptEvent a true st)).interimTranscript
      = "" ∧
    (onTranscriptEvent b true (onTranscriptEvent a true st)).transcript =
      a ++ " " ++ b := by
  have key : ∀ (t : String) (s : PTTState), isVoiceCommand t = false →
      (onTranscriptEvent t true s).transcript =
        (if s.transcript ≠ "" then s.transcript ++ " " ++ t else t) ∧
      (onTranscriptEvent t true s).interimTranscript = "" := by
    intro t s hcmd
    constructor
    · simp [onTranscriptEvent, hcmd, transcriptUpd]
    · simp [onTranscriptEvent, hcmd, transcriptUpd]
  obtain ⟨ka, ka2⟩ := key a st hca
  rw [h0] at ka
  simp at ka
  obtain ⟨kb, kb2⟩ := key b (onTranscriptEvent a true st) hcb
  rw [ka] at kb
  rw [if_pos ha] at kb
  exact ⟨ka, ka2, kb2, kb⟩

/-- Witness for C8 with the texts of the specification example. -/
theorem C8_final_events_space_joined_witness :
    (onTranscriptEvent "foo" true initialState).transcript = "foo" ∧
    (onTranscriptEvent "foo" true initialState).interimTranscript = "" ∧
    (onTranscriptEvent "bar" true (onTranscriptEvent "foo" true
      initialState)).interimTranscript = "" ∧
    (onTranscriptEvent "bar" true (onTranscriptEvent "foo" true
      initialState)).transcript = "foo" ++ " " ++ "bar" :=
  C8_final_events_space_joined initialState "foo" "bar" rfl (by decide)
    (by decide) (by decide)

/-- C9 (counterexample): a zero-energy spectrum is not classified as
silence: at RMS 1 (above the silence threshold) with an all-zero byte
spectrum, the defensive centroid default of 0 routes the frame to `speech`,
not `silence`. -/
theorem C9_counterexample :
    ¬ (∀ (rms : ℚ) (frame : List ℚ) (bytes : List ℕ), bytes.sum = 0 →
        (analyzeAudio rms frame (some bytes)).1 = .silence) := by
  intro h
  have h1 := h 1 [1] [0, 0] rfl
  rw [show (analyzeAudio 1 [1] (some [0, 0])).1 = .speech from by
    norm_num [analyzeAudio, classifyFrame, silenceThreshold, zcrCount,
      weightedSumFn, weightedSumFrom]] at h1
  cases h1

/-- C9 (amended): classification has no error path on a zero-energy
spectrum: the spectral centroid defensively defaults to 0 (no division by
zero occurs), and the frame is classified `silence` exactly when its RMS is
below the silence threshold and `speech` otherwise — never an error and
never `music_noise`. -/
theorem C9_zero_energy_amended (rms : ℚ) (frame : List ℚ) (bytes : List ℕ)
    (h : bytes.sum = 0) :
    (analyzeAudio rms frame (some bytes)).1 =
      (if rms < silenceThreshold then .silence else .speech) := by
  unfold analyzeAudio classifyFrame
  by_cases hr : rms < silenceThreshold
  · simp [hr]
  · simp only [hr, if_false, h]
    norm_num

/-- Witness for C9 (amended) at RMS 1 and the all-zero two-bin spectrum. -/
theorem C9_zero_energy_amended_witness :
    (analyzeAudio 1 [1] (some [0, 0])).1 =
      (if (1 : ℚ) < silenceThreshold then AudioAnalysisStatus.silence
       else AudioAnalysisStatus.speech) :=
  C9_zero_energy_amended 1 [1] [0, 0] rfl

/-- C10 (confirmed): an inbound message of the recognized shape whose first
alternative carries an empty transcript fires no transcript callback, so it
leaves the controller state (in particular the pending transcript) entirely
unchanged; conversely every delivered transcript event carries non-empty
text. -/
theorem C10_empty_transcript_ignored (rest : List DgAlternative) (isF : Bool)
    (st : PTTState) (m : DgMessage) (t : String) (f : Bool)
    (hm : handleMessage m = some (t, f)) :
    handleMessage ⟨some ⟨⟨""⟩ :: rest⟩, isF⟩ = none ∧
    processMessage ⟨some ⟨⟨""⟩ :: rest⟩, isF⟩ st = st ∧
    t ≠ "" := by
  refine ⟨rfl, by simp [processMessage, handleMessage], ?_⟩
  intro ht
  subst ht
  rcases m with ⟨ch, fi⟩
  cases ch with
  | none => exact absurd hm (by simp [handleMessage])
  | some c =>
      rcases c with ⟨alts⟩
      cases alts with
      | nil => exact absurd hm (by simp [handleMessage])
      | cons alt rest2 =>
          by_cases he : alt.transcript = ""
          · simp [handleMessage, he] at hm
          · simp [handleMessage, he] at hm

/-- Witness for C10 at a message carrying the non-empty transcript
string. -/
theorem C10_empty_transcript_ignored_witness :
    handleMessage ⟨some ⟨⟨""⟩ :: []⟩, true⟩ = none ∧
    processMessage ⟨some ⟨⟨""⟩ :: []⟩, true⟩ initialState = initialState ∧
    "hi" ≠ "" :=
  C10_empty_transcript_ignored [] true initialState
    ⟨some ⟨[⟨"hi"⟩]⟩, true⟩ "hi" true rfl

end VoiceToText
